import Mathlib

/-!
A shallow embedding of `pivot_vtab.c` (SQLite pivot virtual table) and proofs
about its behaviour.  The SQLite engine itself (prepare/bind/step/finalize) is
treated as an external collaborator: prepared statements are modelled by their
observable results (result column names, bound-parameter counts, result rows),
and SQL text is built exactly as the C code builds it.
-/

namespace PivotVtab

/-- An SQLite value (`sqlite3_value`).  The embedding only needs null,
integer and text values; the other storage classes behave identically in
all the code paths modelled here. -/
inductive Value where
  | null : Value
  | int : Int → Value
  | text : String → Value
deriving DecidableEq

/-- ASCII lower-casing of one character, as used by `sqlite3_stricmp`. -/
def asciiLower (c : Char) : Char :=
  if 'A' ≤ c && c ≤ 'Z' then Char.ofNat (c.toNat + 32) else c

/-- ASCII lower-casing of a string; `sqlite3_stricmp a b = 0` iff
`strLower a = strLower b`. -/
def strLower (s : String) : String :=
  String.mk (s.data.map asciiLower)

/-- Double every double-quote character, as the `%w` format of
`sqlite3_mprintf`/`sqlite3_str_appendf` does. -/
def escapeQuotes (s : String) : String :=
  String.mk (s.data.foldr (fun c acc => if c = '"' then '"' :: '"' :: acc else c :: acc) [])

/-- Format `"%w"`: an identifier, quoted and with inner quotes doubled. -/
def quoteIdent (s : String) : String :=
  "\"" ++ escapeQuotes s ++ "\""

/-- One row of the column-definition query, as observed through the two
SQLite interfaces the C code uses: `keyVal` is `sqlite3_column_value(stmt,0)`,
`keyText`/`nameText` are the textual forms that `sqlite3_get_table` returns
for columns 0 and 1. -/
structure ColRow where
  keyVal : Value
  keyText : String
  nameText : String
deriving DecidableEq

/-- A duplicate found by the uniqueness scan over the column-definition
rows: either a duplicate column key or a (case-insensitively) duplicate
column display name, carrying the offending text. -/
inductive DupErr where
  | key : String → DupErr
  | name : String → DupErr
deriving DecidableEq

/-- The uniqueness scan of `pivotConnect` (pivot_vtab.c lines 368-381),
translated loop-for-loop.  `sqlite3_get_table` places the header row at
index 0 and the `nRow` data rows at indices 1..nRow, so data row `i` of the
C array is `data.getD (i-1)` here.  The C loops run `i` from 1 while
`i < nRow-1` and `j` from `i+1` while `j < nRow`; within a pair the column
key (exact `strcmp`) is checked before the display name (`sqlite3_stricmp`).
Note the loops never reach index `nRow`, i.e. the last data row. -/
def dupViolation (data : List (String × String)) : Option DupErr :=
  let nRow := data.length
  (List.range' 1 (nRow - 2)).findSome? fun i =>
    (List.range' (i + 1) (nRow - 1 - i)).findSome? fun j =>
      let ri := data.getD (i - 1) ("", "")
      let rj := data.getD (j - 1) ("", "")
      if ri.1 = rj.1 then some (DupErr.key ri.1)
      else if strLower ri.2 = strLower rj.2 then some (DupErr.name ri.2)
      else none

/-- The error outcomes of `pivotConnect`: one per `*pzErr` assignment, plus
`declareError` for a non-OK return code of the final `sqlite3_declare_vtab`
call, which `pivotConnect` returns as its own result (no module message is
set on that path; the host engine reports its own diagnostic). -/
inductive ConnectError where
  | keyPrepareError : ConnectError
  | pivotPrepareError : ConnectError
  | boundParamCountError : ConnectError
  | colPrepareError : ConnectError
  | colCountError : Nat → ConnectError
  | colExecError : ConnectError
  | dupKey : String → ConnectError
  | dupName : String → ConnectError
  | declareError : ConnectError
deriving DecidableEq

/-- Lift a detected duplicate to the corresponding `pivotConnect` error. -/
def dupToConnectError : DupErr → ConnectError
  | DupErr.key s => ConnectError.dupKey s
  | DupErr.name s => ConnectError.dupName s

/-- The inputs of one relation-creation attempt, i.e. everything the SQLite
engine answers to `pivotConnect`:
* `rowKeyQuery`: the text of `argv[3]`;
* `rowKeyCols`: result-column names of the prepared full-scan row-key query,
  or `none` if preparation fails;
* `pivotParamCount`: `sqlite3_bind_parameter_count` of the prepared pivot
  (cell) query, or `none` if preparation fails;
* `colQueryCols`: result-column count of the prepared column-definition
  query, or `none` if preparation fails;
* `colGetTable`: the `sqlite3_get_table` materialisation of the
  column-definition query (data rows, textual), or `none` on failure;
* `colRows`: the rows obtained by stepping the column-definition query. -/
structure ConnectInput where
  rowKeyQuery : String
  rowKeyCols : Option (List String)
  pivotParamCount : Option Nat
  colQueryCols : Option Nat
  colGetTable : Option (List (String × String))
  colRows : List ColRow
deriving DecidableEq

/-- The relation definition built by `pivotConnect` (struct `pivot_vtab`).
`col_stmt` models the array of per-column prepared pivot-query statements by
the one datum that distinguishes them: the column-key value pre-bound to
their final parameter slot.  `create_vtab_sql` is the schema string passed
to `sqlite3_declare_vtab`. -/
structure pivot_vtab where
  nRow_key : Int
  nRow_cols : Nat
  nCol_key : Nat
  col_stmt : List Value
  key_sql_col_names : List String
  key_sql_full_table_scan : String
  create_vtab_sql : String
deriving DecidableEq

/-- Join a list of strings with `","` separators, as the
`if (i>0) append ","` loop of `pivotConnect` does. -/
def commaJoin : List String → String
  | [] => ""
  | [s] => s
  | s :: rest => s ++ "," ++ commaJoin rest

/-- Concatenation of a list of strings (used for the appended-fragment
forms of the generated SQL). -/
def strConcat : List String → String
  | [] => ""
  | s :: rest => s ++ strConcat rest

/-- Whether a list of column names contains a case-insensitive duplicate:
the host engine's CREATE TABLE processing compares each new column name
against every earlier one with `sqlite3_stricmp` (sqlite3AddColumn). -/
def hasDupColName : List String → Bool
  | [] => false
  | n :: rest => rest.any (fun m => strLower n = strLower m) || hasDupColName rest

/-- Outcome of the host engine's `sqlite3_declare_vtab` on the generated
`CREATE TABLE x(col, ...)` statement, given the declared column names (the
`"%w"` quoting round-trips every name, so the parsed names are the original
texts).  The statement is otherwise fixed and well-formed, so the call
fails exactly when the column list is empty (a syntax error) or two
declared names collide case-insensitively ("duplicate column name"). -/
def declareFails (cols : List String) : Bool :=
  cols.isEmpty || hasDupColName cols

/-- Function `pivotConnect` (pivot_vtab.c lines 253-409), the Schema Discoverer.
Stage by stage: prepare the wrapped row-key query and record its column
names; prepare the pivot query and set `nRow_key` to its parameter count
minus one (an `int`, hence `Int` here: it is -1 for a parameterless
template), rejecting only `nRow_key > nRow_cols`; prepare the
column-definition query and require exactly 2 result columns; materialise
it with `sqlite3_get_table` and run the uniqueness scan; step it row by
row, pre-binding one pivot statement per row and appending the quoted
display name to the schema; finally pass the schema to
`sqlite3_declare_vtab` (pivot_vtab.c lines 405-408) and return its result
code, so a declaration the host engine rejects — a case-insensitively
duplicate declared column name — still fails the creation. -/
def pivotConnect (inp : ConnectInput) : Except ConnectError pivot_vtab :=
  let key_sql_full_table_scan := "SELECT * FROM \n" ++ inp.rowKeyQuery
  match inp.rowKeyCols with
  | none => Except.error ConnectError.keyPrepareError
  | some names =>
    let nRow_cols := names.length
    let key_sql_col_names := names.map quoteIdent
    match inp.pivotParamCount with
    | none => Except.error ConnectError.pivotPrepareError
    | some pc =>
      let nRow_key : Int := (pc : Int) - 1
      if nRow_key > (nRow_cols : Int) then Except.error ConnectError.boundParamCountError
      else
        match inp.colQueryCols with
        | none => Except.error ConnectError.colPrepareError
        | some cc =>
          if cc ≠ 2 then Except.error (ConnectError.colCountError cc)
          else
            match inp.colGetTable with
            | none => Except.error ConnectError.colExecError
            | some data =>
              match dupViolation data with
              | some e => Except.error (dupToConnectError e)
              | none =>
                if declareFails (names ++ inp.colRows.map (fun r => r.nameText)) then
                  Except.error ConnectError.declareError
                else
                  Except.ok
                    { nRow_key := nRow_key
                      nRow_cols := nRow_cols
                      nCol_key := inp.colRows.length
                      col_stmt := inp.colRows.map (fun r => r.keyVal)
                      key_sql_col_names := key_sql_col_names
                      key_sql_full_table_scan := key_sql_full_table_scan
                      create_vtab_sql :=
                        "CREATE TABLE x(" ++ commaJoin key_sql_col_names
                          ++ strConcat (inp.colRows.map (fun r => "," ++ quoteIdent r.nameText))
                          ++ ")" }

/-- Whether a creation attempt succeeded. -/
def connectOk (inp : ConnectInput) : Bool :=
  match pivotConnect inp with
  | Except.ok _ => true
  | Except.error _ => false

instance {ε α : Type} [DecidableEq ε] [DecidableEq α] : DecidableEq (Except ε α) :=
  fun a b =>
    match a, b with
    | Except.ok x, Except.ok y => decidable_of_iff (x = y) (by simp)
    | Except.error x, Except.error y => decidable_of_iff (x = y) (by simp)
    | Except.ok _, Except.error _ => isFalse (by simp)
    | Except.error _, Except.ok _ => isFalse (by simp)

/-! ## The row cursor (struct `pivot_cursor` and its methods) -/

/-- The stored step outcome `cur->rc`: `SQLITE_ROW` or `SQLITE_DONE`. -/
inductive Rc where
  | row : Rc
  | done : Rc
deriving DecidableEq

/-- Struct `pivot_cursor`.  The prepared row-key statement `cur->stmt` is
modelled by its not-yet-delivered result rows (`none` once finalized);
`pivot_key` is the duplicated array of the current row's key values
(`none` when the pointer is null or freed). -/
structure pivot_cursor where
  iRowid : Int
  stmt : Option (List (List Value))
  rc : Rc
  pivot_key : Option (List Value)
deriving DecidableEq

/-- The copy loop `pivot_key[i] = sqlite3_value_dup(sqlite3_column_value(stmt, i))`
for `i < nRow_cols`, duplicating the current row out of the statement. -/
def copyRowKey (tab : pivot_vtab) (r : List Value) : List Value :=
  (List.range tab.nRow_cols).map fun i => r.getD i Value.null

/-- Function `pivotFilter` (pivot_vtab.c lines 582-610).  The SQLite engine's
execution of the planner's derived query (the prepared `idxStr` with the
`argv` values bound) is abstracted by its result rows `rows`.  One step is
taken: no row means `rc = DONE` with a null `pivot_key`; a row is copied
into a fresh `pivot_key`.  `iRowid` is initialised to 1. -/
def pivotFilter (tab : pivot_vtab) (rows : List (List Value)) : pivot_cursor :=
  match rows with
  | [] => { iRowid := 1, stmt := some [], rc := Rc.done, pivot_key := none }
  | r :: rest =>
    { iRowid := 1, stmt := some rest, rc := Rc.row, pivot_key := some (copyRowKey tab r) }

/-- Function `pivotNext` (pivot_vtab.c lines 490-510).  The current key values are
freed (array entries nulled, array kept), the statement is stepped, and on
a row the new key values are copied in; `iRowid` is always incremented.
The protocol only calls `pivotNext` on a positioned cursor (`rc = row`,
statement open); on a finalized statement this model reports `DONE`. -/
def pivotNext (tab : pivot_vtab) (cur : pivot_cursor) : pivot_cursor :=
  let cleared := cur.pivot_key.map (fun ks => ks.map fun _ => Value.null)
  match cur.stmt with
  | none => { cur with pivot_key := cleared, rc := Rc.done, iRowid := cur.iRowid + 1 }
  | some [] =>
    { cur with pivot_key := cleared, rc := Rc.done, stmt := some [], iRowid := cur.iRowid + 1 }
  | some (r :: rest) =>
    { iRowid := cur.iRowid + 1, stmt := some rest, rc := Rc.row,
      pivot_key := cur.pivot_key.map (fun _ => copyRowKey tab r) }

/-- Function `pivotEof` (pivot_vtab.c lines 558-574): reports true iff the stored
step outcome is `SQLITE_DONE`, and in that case also frees the key array
and finalizes the row-key statement (so the post-call cursor holds no open
query resource).  Returns the reported flag together with the cursor state
after the call. -/
def pivotEof (cur : pivot_cursor) : Bool × pivot_cursor :=
  if cur.rc = Rc.done then (true, { cur with pivot_key := none, stmt := none })
  else (false, cur)

/-- The bound-parameter store of one pivot-query statement at the moment it
is stepped by `pivotColumn`: the statement has `(nRow_key + 1).toNat`
parameter slots; slots `1..nRow_key` were re-bound to the cursor's current
key values and the final slot holds the pre-bound column key.  (Slot `p`
of the C API is index `p-1` here.) -/
def cellParams (tab : pivot_vtab) (keys : List Value) (pre : Value) : List Value :=
  (List.range (tab.nRow_key + 1).toNat).map fun (pos : Nat) =>
    if (pos : Int) < tab.nRow_key then keys.getD pos Value.null else pre

/-- Function `pivotColumn` (pivot_vtab.c lines 516-543).  `cellFn` is the semantics
of the pivot (cell) query: for a full assignment of its bound parameters it
yields the first-column values of the query's result rows.  An index below
`nRow_cols` reads the captured key value directly; otherwise the statement
`col_stmt[i - nRow_cols]` gets the current key values bound to its leading
slots, is stepped (first row's value, else null) and reset. -/
def pivotColumn (tab : pivot_vtab) (cellFn : List Value → List Value)
    (cur : pivot_cursor) (i : Nat) : Value :=
  if i < tab.nRow_cols then
    (cur.pivot_key.getD []).getD i Value.null
  else
    let pre := tab.col_stmt.getD (i - tab.nRow_cols) Value.null
    let keys := cur.pivot_key.getD []
    match cellFn (cellParams tab keys pre) with
    | v :: _ => v
    | [] => Value.null

/-- Drive a cursor through the SQLite scan protocol: while `Eof` is false,
record the current `pivot_key` tuple and advance with `pivotNext`.  `fuel`
bounds the number of rows delivered (any value at least the row count is
enough). -/
def scanFrom (tab : pivot_vtab) : Nat → pivot_cursor → List (List Value)
  | 0, _ => []
  | fuel + 1, cur =>
    if cur.rc = Rc.done then []
    else (cur.pivot_key.getD []) :: scanFrom tab fuel (pivotNext tab cur)

/-- A full scan: `pivotFilter` on the result rows of the derived query,
then the `Eof`/`Next` loop. -/
def fullScan (tab : pivot_vtab) (rows : List (List Value)) (fuel : Nat) : List (List Value) :=
  scanFrom tab fuel (pivotFilter tab rows)

/-! ## The planner (`pivotBestIndex`) -/

/-- One entry of `sqlite3_index_info.aConstraint`: target column, operator
code (`SQLITE_INDEX_CONSTRAINT_*` numeric value) and usability flag.
Column indices are those of declared table columns; the special rowid
pseudo-column (iColumn = -1 in SQLite) is outside this model. -/
structure IndexConstraint where
  iColumn : Nat
  op : Nat
  usable : Bool
deriving DecidableEq

/-- One entry of `sqlite3_index_info.aOrderBy`. -/
structure OrderByTerm where
  iColumn : Nat
  desc : Bool
deriving DecidableEq

/-- One entry of `sqlite3_index_info.aConstraintUsage`; SQLite initialises
both fields to zero before calling `xBestIndex`. -/
structure ConstraintUsage where
  argvIndex : Nat
  omitFlag : Bool
deriving DecidableEq

/-- The operator switch of `pivotBestIndex` (pivot_vtab.c lines 638-682):
the textual SQL operator for a constraint operator code, or `none` for
`SQLITE_INDEX_CONSTRAINT_FUNCTION` and every other unhandled code. -/
def mapOp (op : Nat) : Option String :=
  if op = 2 then some "="            -- SQLITE_INDEX_CONSTRAINT_EQ
  else if op = 16 then some "<"      -- SQLITE_INDEX_CONSTRAINT_LT
  else if op = 8 then some "<="      -- SQLITE_INDEX_CONSTRAINT_LE
  else if op = 4 then some ">"       -- SQLITE_INDEX_CONSTRAINT_GT
  else if op = 32 then some ">="     -- SQLITE_INDEX_CONSTRAINT_GE
  else if op = 64 then some "MATCH"  -- SQLITE_INDEX_CONSTRAINT_MATCH
  else if op = 65 then some "LIKE"   -- SQLITE_INDEX_CONSTRAINT_LIKE
  else if op = 66 then some "GLOB"   -- SQLITE_INDEX_CONSTRAINT_GLOB
  else if op = 67 then some "REGEXP" -- SQLITE_INDEX_CONSTRAINT_REGEXP
  else if op = 68 then some "<>"     -- SQLITE_INDEX_CONSTRAINT_NE
  else if op = 69 ∨ op = 70 then some "IS NOT" -- ISNOT / ISNOTNULL
  else if op = 71 ∨ op = 72 then some "IS"     -- ISNULL / IS
  else none

/-- State of the constraint loop: the SQL string under construction, the
next `argvIndex` to hand out (starts at 1) and the usage entries filled in
so far. -/
@[ext]
structure BIState where
  sql : String
  argvIndex : Nat
  usage : List ConstraintUsage
deriving DecidableEq

/-- One iteration of the constraint loop of `pivotBestIndex` (pivot_vtab.c
lines 635-694): unusable constraints and constraints on columns at or
beyond `nRow_cols` are skipped (their usage entry keeps the zero initial
value); an unmappable operator keeps `omit = 0`; a mapped operator appends
`" WHERE "`/`" AND "` plus `name op ?` to the query, hands out the next
`argvIndex` and sets `omit = 1`. -/
def constraintStep (tab : pivot_vtab) (st : BIState) (c : IndexConstraint) : BIState :=
  if c.usable = false then
    { st with usage := st.usage ++ [{ argvIndex := 0, omitFlag := false }] }
  else if ¬ c.iColumn < tab.nRow_cols then
    { st with usage := st.usage ++ [{ argvIndex := 0, omitFlag := false }] }
  else
    match mapOp c.op with
    | none => { st with usage := st.usage ++ [{ argvIndex := 0, omitFlag := false }] }
    | some op =>
      { sql := st.sql ++ (if st.argvIndex = 1 then "\n WHERE " else " AND ")
          ++ tab.key_sql_col_names.getD c.iColumn "" ++ " " ++ op ++ " ?",
        argvIndex := st.argvIndex + 1,
        usage := st.usage ++ [{ argvIndex := st.argvIndex, omitFlag := true }] }

/-- State of the ORDER BY loop: the SQL string, `orderIdx`, and the
`orderByConsumed` flag (zero-initialised by SQLite). -/
@[ext]
structure OBState where
  sql : String
  orderIdx : Nat
  consumed : Bool
deriving DecidableEq

/-- The text appended for one ordering term: `"%s %s"` of the quoted column
name and `"DESC"` or `""`. -/
def orderTermText (tab : pivot_vtab) (o : OrderByTerm) : String :=
  tab.key_sql_col_names.getD o.iColumn "" ++ " " ++ (if o.desc then "DESC" else "")

/-- One iteration of the ORDER BY loop of `pivotBestIndex` (pivot_vtab.c
lines 696-708): terms on columns at or beyond `nRow_cols` are skipped;
an eligible term appends `" ORDER BY "`/`", "` plus the term text and sets
`orderByConsumed`. -/
def orderStep (tab : pivot_vtab) (st : OBState) (o : OrderByTerm) : OBState :=
  if ¬ o.iColumn < tab.nRow_cols then st
  else
    { sql := st.sql ++ (if st.orderIdx = 0 then "\n ORDER BY " else ", ") ++ orderTermText tab o,
      orderIdx := st.orderIdx + 1,
      consumed := true }

/-- The outputs `pivotBestIndex` writes into `sqlite3_index_info`. -/
structure IndexInfoOut where
  usage : List ConstraintUsage
  orderByConsumed : Bool
  idxNum : Int
  estimatedCost : ℚ
  estimatedRows : Int
  idxStr : String
deriving DecidableEq

/-- Function `pivotBestIndex` (pivot_vtab.c lines 618-717): run the constraint loop
over a copy of the full-scan query, then the ORDER BY loop, and fill in
`idxNum = 0`, `estimatedCost = 2147483647 / argvIndex` (exact rational
standing in for the C `double` division) and `estimatedRows = 10`.  The
relation definition is only read; it is returned alongside the outputs to
state this. -/
def pivotBestIndex (tab : pivot_vtab) (cs : List IndexConstraint)
    (ob : List OrderByTerm) : IndexInfoOut × pivot_vtab :=
  let st := cs.foldl (constraintStep tab)
    { sql := tab.key_sql_full_table_scan, argvIndex := 1, usage := [] }
  let ost := ob.foldl (orderStep tab) { sql := st.sql, orderIdx := 0, consumed := false }
  ({ usage := st.usage,
     orderByConsumed := ost.consumed,
     idxNum := 0,
     estimatedCost := (2147483647 : ℚ) / (st.argvIndex : ℚ),
     estimatedRows := 10,
     idxStr := ost.sql }, tab)

/-- The planner's outputs alone (the QueryPlan). -/
def pivotPlan (tab : pivot_vtab) (cs : List IndexConstraint)
    (ob : List OrderByTerm) : IndexInfoOut :=
  (pivotBestIndex tab cs ob).1

/-! ## Derived characterisations of the planner output

These definitions restate, directly from the specification's wording, what
the generated query and usage entries should be; the claim theorems prove
the planner's folds equal to them. -/

/-- A constraint the planner consumes: usable, on a row-key column, with a
mappable operator. -/
def eligible (tab : pivot_vtab) (c : IndexConstraint) : Bool :=
  c.usable && decide (c.iColumn < tab.nRow_cols) && (mapOp c.op).isSome

/-- An ordering term the planner pushes down: on a row-key column. -/
def eligibleOrd (tab : pivot_vtab) (o : OrderByTerm) : Bool :=
  decide (o.iColumn < tab.nRow_cols)

/-- The conjunct `column operator ?` generated for one consumed constraint. -/
def conjunctText (tab : pivot_vtab) (c : IndexConstraint) : String :=
  tab.key_sql_col_names.getD c.iColumn "" ++ " " ++ (mapOp c.op).getD "" ++ " ?"

/-- The WHERE clause of the derived query: the consumed constraints, in
input order, joined as a conjunction (empty when none is consumed). -/
def whereClauseSpec (tab : pivot_vtab) (cs : List IndexConstraint) : String :=
  match cs.filter (eligible tab) with
  | [] => ""
  | c :: rest =>
    "\n WHERE " ++ conjunctText tab c
      ++ strConcat (rest.map (fun d => " AND " ++ conjunctText tab d))

/-- The ORDER BY clause of the derived query: the eligible ordering terms,
in requested order and direction (empty when none is eligible). -/
def orderClauseSpec (tab : pivot_vtab) (ob : List OrderByTerm) : String :=
  match ob.filter (eligibleOrd tab) with
  | [] => ""
  | o :: rest =>
    "\n ORDER BY " ++ orderTermText tab o
      ++ strConcat (rest.map (fun p => ", " ++ orderTermText tab p))

/-- The generated-so-far WHERE fragment, threading the next `argvIndex`
(the separator depends on whether any conjunct was emitted before). -/
def clauseAux (tab : pivot_vtab) : Nat → List IndexConstraint → String
  | _, [] => ""
  | k, c :: cs =>
    if eligible tab c then
      (if k = 1 then "\n WHERE " else " AND ") ++ conjunctText tab c ++ clauseAux tab (k + 1) cs
    else clauseAux tab k cs

/-- The usage entries, threading the next `argvIndex`. -/
def usageAux (tab : pivot_vtab) : Nat → List IndexConstraint → List ConstraintUsage
  | _, [] => []
  | k, c :: cs =>
    if eligible tab c then { argvIndex := k, omitFlag := true } :: usageAux tab (k + 1) cs
    else { argvIndex := 0, omitFlag := false } :: usageAux tab k cs

/-- The generated-so-far ORDER BY fragment, threading `orderIdx`. -/
def orderClauseAux (tab : pivot_vtab) : Nat → List OrderByTerm → String
  | _, [] => ""
  | k, o :: os =>
    if eligibleOrd tab o then
      (if k = 0 then "\n ORDER BY " else ", ") ++ orderTermText tab o
        ++ orderClauseAux tab (k + 1) os
    else orderClauseAux tab k os

/-! ## Concrete instances used by the witnesses and counterexamples -/

/-- Creation attempt whose column-definition query yields exactly two rows
with the same column key. -/
def dupKeyTwoRowsInput : ConnectInput :=
  { rowKeyQuery := "SELECT id r_id FROM r"
    rowKeyCols := some ["r_id"]
    pivotParamCount := some 2
    colQueryCols := some 2
    colGetTable := some [("1", "a"), ("1", "b")]
    colRows := [⟨Value.int 1, "1", "a"⟩, ⟨Value.int 1, "1", "b"⟩] }

/-- Creation attempt with three column-definition rows where the duplicate
column key pairs the first row with the last row. -/
def dupKeyLastRowInput : ConnectInput :=
  { rowKeyQuery := "SELECT id r_id FROM r"
    rowKeyCols := some ["r_id"]
    pivotParamCount := some 2
    colQueryCols := some 2
    colGetTable := some [("1", "a"), ("2", "b"), ("1", "c")]
    colRows := [⟨Value.int 1, "1", "a"⟩, ⟨Value.int 2, "2", "b"⟩, ⟨Value.int 1, "1", "c"⟩] }

/-- Creation attempt with three column-definition rows where the display
name of the last row duplicates the first case-insensitively. -/
def dupNameLastRowInput : ConnectInput :=
  { rowKeyQuery := "SELECT id r_id FROM r"
    rowKeyCols := some ["r_id"]
    pivotParamCount := some 2
    colQueryCols := some 2
    colGetTable := some [("1", "a"), ("2", "b"), ("3", "A")]
    colRows := [⟨Value.int 1, "1", "a"⟩, ⟨Value.int 2, "2", "b"⟩, ⟨Value.int 3, "3", "A"⟩] }

/-- Creation attempt whose cell query declares 2 bound parameters while the
row-key query has 2 result columns: parameter count minus one (= 1) is
less than the row-key arity (= 2). -/
def fewerParamsInput : ConnectInput :=
  { rowKeyQuery := "SELECT a, b FROM r"
    rowKeyCols := some ["a", "b"]
    pivotParamCount := some 2
    colQueryCols := some 2
    colGetTable := some [("1", "c1")]
    colRows := [⟨Value.int 1, "1", "c1"⟩] }

/-- Creation attempt whose cell query declares 5 bound parameters against a
single row-key column (parameter count minus one exceeds the arity). -/
def tooManyParamsInput : ConnectInput :=
  { rowKeyQuery := "SELECT id r_id FROM r"
    rowKeyCols := some ["r_id"]
    pivotParamCount := some 5
    colQueryCols := some 2
    colGetTable := some []
    colRows := [] }

/-- A well-formed creation attempt: one row-key column, two pivot columns. -/
def okInput : ConnectInput :=
  { rowKeyQuery := "SELECT id r_id FROM r"
    rowKeyCols := some ["r_id"]
    pivotParamCount := some 2
    colQueryCols := some 2
    colGetTable := some [("1", "a"), ("2", "b")]
    colRows := [⟨Value.int 1, "1", "a"⟩, ⟨Value.int 2, "2", "b"⟩] }

/-- The relation `pivotConnect` builds from `okInput`. -/
def okTab : pivot_vtab :=
  { nRow_key := 1
    nRow_cols := 1
    nCol_key := 2
    col_stmt := [Value.int 1, Value.int 2]
    key_sql_col_names := ["\"r_id\""]
    key_sql_full_table_scan := "SELECT * FROM \nSELECT id r_id FROM r"
    create_vtab_sql := "CREATE TABLE x(\"r_id\",\"a\",\"b\")" }

/-- A relation with two row-key columns and two pivot columns, with
`nRow_key = nRow_cols` (the fully-bound shape). -/
def exTab : pivot_vtab :=
  { nRow_key := 2
    nRow_cols := 2
    nCol_key := 2
    col_stmt := [Value.int 1, Value.int 2]
    key_sql_col_names := ["\"r1\"", "\"r2\""]
    key_sql_full_table_scan := "SELECT * FROM \nSELECT r1, r2 FROM r"
    create_vtab_sql := "CREATE TABLE x(\"r1\",\"r2\",\"a\",\"b\")" }

/-- A relation of the shape creation accepts with a cell template that
declares fewer leading parameters (1) than there are row-key columns (2). -/
def shortTab : pivot_vtab :=
  { nRow_key := 1
    nRow_cols := 2
    nCol_key := 2
    col_stmt := [Value.int 1, Value.int 2]
    key_sql_col_names := ["\"r1\"", "\"r2\""]
    key_sql_full_table_scan := "SELECT * FROM \nSELECT r1, r2 FROM r"
    create_vtab_sql := "CREATE TABLE x(\"r1\",\"r2\",\"a\",\"b\")" }

/-- Result rows of the full-scan row-key query of `exTab` in the witness
scenario. -/
def exRows : List (List Value) :=
  [[Value.int 1, Value.int 7], [Value.int 2, Value.int 8]]

/-- A cell-query semantics that echoes its bound parameters back (so the
result visibly depends on exactly the values that were bound). -/
def exCellFn : List Value → List Value := fun ps => ps

/-- A cursor positioned on the last row of its scan (next step exhausts). -/
def exLastCur : pivot_cursor :=
  { iRowid := 1, stmt := some [], rc := Rc.row, pivot_key := some [Value.int 1, Value.int 2] }

/-- A cursor over `shortTab` positioned on the tuple (1, 2). -/
def curA : pivot_cursor :=
  { iRowid := 1, stmt := some [], rc := Rc.row, pivot_key := some [Value.int 1, Value.int 2] }

/-- A cursor over `shortTab` positioned on the tuple (1, 99): same first
(bound) key value as `curA`, different trailing key value. -/
def curB : pivot_cursor :=
  { iRowid := 1, stmt := some [], rc := Rc.row, pivot_key := some [Value.int 1, Value.int 99] }

/-- Planner request: an equality constraint on row-key column 0, a usable
equality constraint on pivot column 2, a function-style constraint on
row-key column 1, and a GE constraint on row-key column 1. -/
def exConstraints : List IndexConstraint :=
  [⟨0, 2, true⟩, ⟨2, 2, true⟩, ⟨1, 150, true⟩, ⟨1, 32, true⟩]

/-- Ordering request: pivot column 3 descending (ineligible), then row-key
column 0 ascending, then row-key column 1 descending. -/
def exOrderBy : List OrderByTerm :=
  [⟨3, true⟩, ⟨0, false⟩, ⟨1, true⟩]

/-- Ordering request containing no term on a row-key column. -/
def exOrderByNone : List OrderByTerm :=
  [⟨5, true⟩]

/-! # Helper lemmas -/

theorem strConcat_append (x y : List String) :
    strConcat (x ++ y) = strConcat x ++ strConcat y := by
  induction x with
  | nil => simp [strConcat, String.empty_append]
  | cons a l ih => simp [strConcat, ih, String.append_assoc]

theorem commaJoin_cons (x : String) (l : List String) :
    commaJoin (x :: l) = x ++ strConcat (l.map (fun s => "," ++ s)) := by
  induction l generalizing x with
  | nil => simp [commaJoin, strConcat, String.append_empty]
  | cons y ys ih => simp [commaJoin, ih, strConcat, String.append_assoc]

theorem commaJoin_append (x y : List String) (hx : x ≠ []) :
    commaJoin (x ++ y) = commaJoin x ++ strConcat (y.map (fun s => "," ++ s)) := by
  cases x with
  | nil => exact absurd rfl hx
  | cons a l =>
    rw [List.cons_append, commaJoin_cons, commaJoin_cons, List.map_append, strConcat_append,
      String.append_assoc]

theorem map_getD_range (r : List Value) (d : Value) :
    (List.range r.length).map (fun i => r.getD i d) = r := by
  induction r with
  | nil => simp
  | cons a l ih =>
    rw [List.length_cons, List.range_succ_eq_map l.length]
    simp only [List.map_cons, List.getD_cons_zero, List.map_map, Function.comp_def,
      List.getD_cons_succ]
    rw [ih]

theorem getD_take_of_lt (l : List Value) (k pos : Nat) (d : Value) (h : pos < k) :
    (l.take k).getD pos d = l.getD pos d := by
  simp [List.getD_eq_getElem?_getD, List.getElem?_take, h]

/-! # Theorems about the embedded program -/

/-- The uniqueness scan does fire when the duplicate pair lies among the
first `nRow - 1` data rows. -/
theorem dupViolation_detects_early_dup :
    dupViolation [("1", "a"), ("1", "b"), ("2", "c")] = some (DupErr.key "1") ∧
    dupViolation [("1", "a"), ("2", "A"), ("3", "c")] = some (DupErr.name "a") := by decide

/-- Claim C1: the claim requires every creation attempt with a duplicate
column key (exact) or case-insensitively duplicate display name to fail
with a SchemaError naming the duplicate, "including when the duplicate
involves the last row and when there are exactly two column-definition
rows".  The code's uniqueness loops run `i` in `[1, nRow-1)` and `j` in
`(i, nRow)` over a `sqlite3_get_table` array whose data rows occupy indices
1..nRow, so the last data row is never compared with anything and, with
exactly two rows, nothing is compared at all.  Consequently the two
duplicate-KEY attempts below are accepted and the relation is registered
(their display names are distinct, so the final `sqlite3_declare_vtab`
succeeds).  The duplicate-NAME attempt also escapes the module's scan; that
creation still fails, but only because the host engine's declare step
rejects the duplicate declared column name — not through the module's
SchemaError path the claim describes. -/
theorem pivotConnect_accepts_dup_involving_last_row :
    connectOk dupKeyTwoRowsInput = true ∧
    connectOk dupKeyLastRowInput = true ∧
    pivotConnect dupNameLastRowInput = Except.error ConnectError.declareError := by decide

/-- Claim C2 counterexample: `fewerParamsInput` declares a cell query with
2 bound parameters against 2 row-key columns, so (parameter count − 1) = 1
differs from rowKeyArity = 2; the claim says creation must fail, but it
succeeds. -/
theorem pivotConnect_accepts_fewer_params :
    fewerParamsInput.pivotParamCount = some 2 ∧
    fewerParamsInput.rowKeyCols = some ["a", "b"] ∧
    connectOk fewerParamsInput = true := by decide

/-- Claim C2 (amended): once the row-key and cell queries prepare
successfully, creation fails with the "unexpected bound parameter count"
SchemaError if and only if the cell query's parameter count minus one
EXCEEDS the row-key arity; a smaller parameter count is accepted. -/
theorem pivotConnect_param_check_iff (inp : ConnectInput) (names : List String) (pc : Nat)
    (h1 : inp.rowKeyCols = some names) (h2 : inp.pivotParamCount = some pc) :
    pivotConnect inp = Except.error ConnectError.boundParamCountError ↔
      (pc : Int) - 1 > (names.length : Int) := by
  unfold pivotConnect
  rw [h1, h2]
  by_cases hgt : (pc : Int) - 1 > (names.length : Int)
  · simp [hgt]
  · simp only [gt_iff_lt, hgt, if_false, iff_false]
    cases hc : inp.colQueryCols with
    | none => simp
    | some cc =>
      by_cases hcc : cc = 2
      · subst hcc
        simp only [if_neg (by decide : ¬ (2 : Nat) ≠ 2)]
        cases hg : inp.colGetTable with
        | none => simp
        | some data =>
          cases hd : dupViolation data with
          | none =>
            simp only [hd]
            split <;> simp
          | some e => cases e <;> simp [hd, dupToConnectError]
      · simp [hcc]

/-- Witness for C2's amended theorem: `tooManyParamsInput` (5 parameters,
arity 1) is rejected with the bound-parameter-count error. -/
theorem pivotConnect_param_check_iff_witness :
    pivotConnect tooManyParamsInput = Except.error ConnectError.boundParamCountError :=
  (pivotConnect_param_check_iff tooManyParamsInput ["r_id"] 5 rfl rfl).mpr (by decide)

/-- Claim C6: on successful creation the declared schema is the quoted
row-key column names in source order followed by one quoted
`columnDisplayName` per column-definition row in row order, the declared
column count is rowKeyArity plus the number of column-definition rows, and
one pre-bound cell statement exists per pivot column (bound to that row's
column key). -/
theorem pivotConnect_schema (inp : ConnectInput) (names : List String) (tab : pivot_vtab)
    (h1 : inp.rowKeyCols = some names) (hne : names ≠ [])
    (h2 : pivotConnect inp = Except.ok tab) :
    tab.create_vtab_sql =
      "CREATE TABLE x(" ++
        commaJoin (names.map quoteIdent ++ inp.colRows.map (fun r => quoteIdent r.nameText))
        ++ ")" ∧
    tab.key_sql_col_names = names.map quoteIdent ∧
    tab.nRow_cols = names.length ∧
    tab.nCol_key = inp.colRows.length ∧
    tab.col_stmt = inp.colRows.map (fun r => r.keyVal) ∧
    (names.map quoteIdent ++ inp.colRows.map (fun r => quoteIdent r.nameText)).length
      = tab.nRow_cols + tab.nCol_key := by
  simp only [pivotConnect, h1] at h2
  cases hp : inp.pivotParamCount with
  | none => rw [hp] at h2; simp at h2
  | some pc =>
    rw [hp] at h2
    simp only [] at h2
    by_cases hgt : (pc : Int) - 1 > (names.length : Int)
    · rw [if_pos hgt] at h2; simp at h2
    · rw [if_neg hgt] at h2
      cases hc : inp.colQueryCols with
      | none => rw [hc] at h2; simp at h2
      | some cc =>
        rw [hc] at h2
        simp only [] at h2
        by_cases hcc : cc ≠ 2
        · rw [if_pos hcc] at h2; simp at h2
        · rw [if_neg hcc] at h2
          cases hg : inp.colGetTable with
          | none => rw [hg] at h2; simp at h2
          | some data =>
            rw [hg] at h2
            simp only [] at h2
            cases hd : dupViolation data with
            | some e => rw [hd] at h2; simp at h2
            | none =>
              rw [hd] at h2
              simp only [] at h2
              split at h2
              · simp at h2
              simp only [Except.ok.injEq] at h2
              subst h2
              refine ⟨?_, rfl, rfl, rfl, rfl, by simp⟩
              rw [commaJoin_append _ _ (by simpa using hne), List.map_map]
              simp [String.append_assoc, Function.comp_def]

/-- Witness for C6: the concrete creation `okInput` yields `okTab`, whose
schema is exactly the merged quoted column list. -/
theorem pivotConnect_schema_witness :
    pivotConnect okInput = Except.ok okTab ∧
    okTab.create_vtab_sql =
      "CREATE TABLE x(" ++
        commaJoin (["r_id"].map quoteIdent
          ++ okInput.colRows.map (fun r => quoteIdent r.nameText)) ++ ")" :=
  ⟨by decide, (pivotConnect_schema okInput ["r_id"] okTab rfl (by decide) (by decide)).1⟩

/-! ### Cursor lemmas -/

theorem copyRowKey_self (tab : pivot_vtab) (r : List Value)
    (h : r.length = tab.nRow_cols) : copyRowKey tab r = r := by
  unfold copyRowKey
  rw [← h]
  exact map_getD_range r Value.null

theorem scanFrom_done (tab : pivot_vtab) (fuel : Nat) (cur : pivot_cursor)
    (h : cur.rc = Rc.done) : scanFrom tab fuel cur = [] := by
  cases fuel with
  | zero => rfl
  | succ n => simp [scanFrom, h]

theorem scanFrom_row (tab : pivot_vtab) (rows : List (List Value)) :
    ∀ (fuel : Nat) (pk : List Value) (iR : Int),
      rows.length < fuel → (∀ r ∈ rows, r.length = tab.nRow_cols) →
      scanFrom tab fuel
          { iRowid := iR, stmt := some rows, rc := Rc.row, pivot_key := some pk }
        = pk :: rows := by
  induction rows with
  | nil =>
    intro fuel pk iR hf _
    cases fuel with
    | zero => omega
    | succ n =>
      simp only [scanFrom, pivotNext]
      rw [if_neg (by simp)]
      rw [scanFrom_done tab n _ rfl]
      simp
  | cons r rest ih =>
    intro fuel pk iR hf hlen
    cases fuel with
    | zero => omega
    | succ n =>
      simp only [scanFrom, pivotNext]
      rw [if_neg (by simp)]
      simp only [Option.map_some']
      rw [copyRowKey_self tab r (hlen r (by simp))]
      rw [ih n r (iR + 1) (by simpa using hf) (fun x hx => hlen x (by simp [hx]))]
      simp

theorem cellParams_full (tab : pivot_vtab) (keys : List Value) (pre : Value)
    (hk : tab.nRow_key = (tab.nRow_cols : Int)) (hl : keys.length = tab.nRow_cols) :
    cellParams tab keys pre = keys ++ [pre] := by
  unfold cellParams
  rw [hk]
  have h1 : ((tab.nRow_cols : Int) + 1).toNat = tab.nRow_cols + 1 := by omega
  rw [h1, List.range_succ, List.map_append]
  have h2 : (List.range tab.nRow_cols).map
      (fun (pos : Nat) => if (pos : Int) < (tab.nRow_cols : Int) then keys.getD pos Value.null
        else pre)
      = (List.range tab.nRow_cols).map (fun pos => keys.getD pos Value.null) :=
    List.map_congr_left (fun pos hpos => by
      rw [if_pos (by exact_mod_cast List.mem_range.mp hpos)])
  rw [h2, ← hl, map_getD_range]
  simp

theorem cellParams_take_key (tab : pivot_vtab) (keys : List Value) (pre : Value) :
    cellParams tab keys pre = cellParams tab (keys.take tab.nRow_key.toNat) pre := by
  unfold cellParams
  refine List.map_congr_left (fun pos _ => ?_)
  by_cases hlt : (pos : Int) < tab.nRow_key
  · rw [if_pos hlt, if_pos hlt,
      (getD_take_of_lt keys tab.nRow_key.toNat pos Value.null (by omega)).symm]
  · rw [if_neg hlt, if_neg hlt]

theorem pivotColumn_cell (tab : pivot_vtab) (cellFn : List Value → List Value)
    (cur : pivot_cursor) (r : List Value) (i : Nat)
    (hpk : cur.pivot_key = some r) (hi : tab.nRow_cols ≤ i) :
    pivotColumn tab cellFn cur i
      = (cellFn (cellParams tab r (tab.col_stmt.getD (i - tab.nRow_cols) Value.null))).headD
          Value.null := by
  simp only [pivotColumn, hpk, Option.getD_some]
  rw [if_neg (by omega)]
  cases cellFn (cellParams tab r (tab.col_stmt.getD (i - tab.nRow_cols) Value.null)) <;> simp

/-- Claim C3: a full, unfiltered scan of a validly created relation (with
`pivotParamArity = rowKeyArity`) enumerates exactly the rows of the row-key
query in that query's order; on any positioned cursor, a column index below
`rowKeyArity` reads the captured key value at that index, and a pivot
column index `rowKeyArity + j` yields the first result of the cell query
bound to the row's key values and that column's pre-bound key, or null when
the cell query yields no row. -/
theorem fullScan_correct (tab : pivot_vtab) (rows : List (List Value))
    (fuel : Nat) (cellFn : List Value → List Value)
    (hk : tab.nRow_key = (tab.nRow_cols : Int))
    (hlen : ∀ r ∈ rows, r.length = tab.nRow_cols)
    (hfuel : rows.length ≤ fuel) :
    fullScan tab rows fuel = rows ∧
    (∀ (cur : pivot_cursor) (r : List Value), cur.pivot_key = some r →
      r.length = tab.nRow_cols →
      (∀ i, i < tab.nRow_cols → pivotColumn tab cellFn cur i = r.getD i Value.null) ∧
      (∀ j, j < tab.col_stmt.length →
        pivotColumn tab cellFn cur (tab.nRow_cols + j)
          = (cellFn (r ++ [tab.col_stmt.getD j Value.null])).headD Value.null)) := by
  constructor
  · cases rows with
    | nil => exact scanFrom_done tab fuel _ rfl
    | cons r rest =>
      simp only [fullScan, pivotFilter]
      rw [copyRowKey_self tab r (hlen r (by simp))]
      exact scanFrom_row tab rest fuel r 1 (by simpa using hfuel)
        (fun x hx => hlen x (by simp [hx]))
  · intro cur r hpk hrl
    constructor
    · intro i hi
      simp only [pivotColumn, hpk, Option.getD_some]
      rw [if_pos hi]
    · intro j _
      rw [pivotColumn_cell tab cellFn cur r (tab.nRow_cols + j) hpk (by omega)]
      rw [Nat.add_sub_cancel_left]
      rw [cellParams_full tab r _ hk hrl]

/-- Witness for C3: scanning `exTab` over the two-row result `exRows`
returns exactly those rows. -/
theorem fullScan_correct_witness :
    exTab.nRow_key = (exTab.nRow_cols : Int) ∧
    (∀ r ∈ exRows, r.length = exTab.nRow_cols) ∧
    fullScan exTab exRows 2 = exRows :=
  ⟨by decide, by decide,
    (fullScan_correct exTab exRows 2 exCellFn (by decide) (by decide) (by decide)).1⟩

/-- Claim C7: `Eof` reports true exactly when the stored advance outcome is
`SQLITE_DONE`; and whenever an advance (`pivotFilter` or `pivotNext`) finds
no further row, the `Eof` call that follows in the scan protocol reports
exhaustion and leaves the cursor with no retained row-key tuple and no open
(un-finalized) row-key statement. -/
theorem pivotEof_exhaustion (tab : pivot_vtab) (cur : pivot_cursor)
    (rows : List (List Value)) :
    ((pivotEof cur).1 = true ↔ cur.rc = Rc.done) ∧
    ((pivotNext tab cur).rc = Rc.done →
      (pivotEof (pivotNext tab cur)).1 = true ∧
      (pivotEof (pivotNext tab cur)).2.pivot_key = none ∧
      (pivotEof (pivotNext tab cur)).2.stmt = none) ∧
    ((pivotFilter tab rows).rc = Rc.done →
      (pivotEof (pivotFilter tab rows)).1 = true ∧
      (pivotEof (pivotFilter tab rows)).2.pivot_key = none ∧
      (pivotEof (pivotFilter tab rows)).2.stmt = none) := by
  refine ⟨?_, ?_, ?_⟩
  · unfold pivotEof
    by_cases h : cur.rc = Rc.done <;> simp [h]
  · intro h
    simp [pivotEof, h]
  · intro h
    simp [pivotEof, h]

/-- Witness for C7: advancing `exLastCur` (positioned on the final row)
exhausts it, and the following `Eof` call reports true and finalizes. -/
theorem pivotEof_exhaustion_witness :
    (pivotNext exTab exLastCur).rc = Rc.done ∧
    (pivotEof (pivotNext exTab exLastCur)).1 = true ∧
    (pivotEof (pivotNext exTab exLastCur)).2.stmt = none :=
  ⟨by decide,
    ((pivotEof_exhaustion exTab exLastCur []).2.1 (by decide)).1,
    ((pivotEof_exhaustion exTab exLastCur []).2.1 (by decide)).2.2⟩

/-- Claim C10: resolving a pivot column binds only the first
`(cell parameter count − 1)` values of the current row-key tuple into the
cell statement's leading slots, so when the cell template declares fewer
leading parameters than there are row-key columns, the trailing row-key
values never influence the result: two cursors whose tuples agree on that
leading prefix resolve every pivot column identically. -/
theorem pivotColumn_ignores_trailing_keys (tab : pivot_vtab)
    (cellFn : List Value → List Value) (cur1 cur2 : pivot_cursor)
    (r1 r2 : List Value) (i : Nat)
    (h1 : cur1.pivot_key = some r1) (h2 : cur2.pivot_key = some r2)
    (hpre : r1.take tab.nRow_key.toNat = r2.take tab.nRow_key.toNat)
    (hi : tab.nRow_cols ≤ i) :
    pivotColumn tab cellFn cur1 i = pivotColumn tab cellFn cur2 i ∧
    (∀ (keys : List Value) (pre : Value),
      cellParams tab keys pre = cellParams tab (keys.take tab.nRow_key.toNat) pre) := by
  constructor
  · rw [pivotColumn_cell tab cellFn cur1 r1 i h1 hi,
      pivotColumn_cell tab cellFn cur2 r2 i h2 hi,
      cellParams_take_key tab r1, cellParams_take_key tab r2, hpre]
  · intro keys pre
    exact cellParams_take_key tab keys pre

/-- Witness for C10: over `shortTab` (1 bound key parameter, 2 row-key
columns), cursors on (1, 2) and (1, 99) resolve pivot column 2 to the same
value even though the cell semantics echoes its parameters. -/
theorem pivotColumn_ignores_trailing_keys_witness :
    curA.pivot_key = some [Value.int 1, Value.int 2] ∧
    curB.pivot_key = some [Value.int 1, Value.int 99] ∧
    pivotColumn shortTab exCellFn curA 2 = pivotColumn shortTab exCellFn curB 2 :=
  ⟨rfl, rfl,
    (pivotColumn_ignores_trailing_keys shortTab exCellFn curA curB
      [Value.int 1, Value.int 2] [Value.int 1, Value.int 99] 2
      rfl rfl (by decide) (by decide)).1⟩

/-! ### Planner lemmas -/

theorem constraintStep_eligible (tab : pivot_vtab) (st : BIState) (c : IndexConstraint)
    (h : eligible tab c = true) :
    constraintStep tab st c =
      { sql := st.sql ++ (if st.argvIndex = 1 then "\n WHERE " else " AND ")
          ++ conjunctText tab c,
        argvIndex := st.argvIndex + 1,
        usage := st.usage ++ [{ argvIndex := st.argvIndex, omitFlag := true }] } := by
  unfold eligible at h
  simp only [Bool.and_eq_true, decide_eq_true_eq] at h
  obtain ⟨⟨hu, hcol⟩, hop⟩ := h
  obtain ⟨op, hopeq⟩ := Option.isSome_iff_exists.mp hop
  unfold constraintStep
  rw [if_neg (by simp [hu]), if_neg (not_not_intro hcol), hopeq]
  unfold conjunctText
  rw [hopeq]
  simp [String.append_assoc]

theorem constraintStep_skip (tab : pivot_vtab) (st : BIState) (c : IndexConstraint)
    (h : eligible tab c = false) :
    constraintStep tab st c =
      { st with usage := st.usage ++ [{ argvIndex := 0, omitFlag := false }] } := by
  unfold constraintStep
  by_cases hu : c.usable = false
  · rw [if_pos hu]
  · rw [if_neg hu]
    have hu2 : c.usable = true := by revert hu; cases c.usable <;> simp
    by_cases hcol : c.iColumn < tab.nRow_cols
    · rw [if_neg (not_not_intro hcol)]
      cases hmo : mapOp c.op with
      | none => rfl
      | some op =>
        exfalso
        unfold eligible at h
        rw [hu2, hmo] at h
        simp [hcol] at h
    · rw [if_pos hcol]

theorem constraintFold (tab : pivot_vtab) (cs : List IndexConstraint) :
    ∀ (sql0 : String) (k : Nat) (us : List ConstraintUsage),
      cs.foldl (constraintStep tab) { sql := sql0, argvIndex := k, usage := us } =
        { sql := sql0 ++ clauseAux tab k cs,
          argvIndex := k + (cs.filter (eligible tab)).length,
          usage := us ++ usageAux tab k cs } := by
  induction cs with
  | nil =>
    intro sql0 k us
    simp [clauseAux, usageAux, String.append_empty]
  | cons c cs ih =>
    intro sql0 k us
    rw [List.foldl_cons]
    by_cases h : eligible tab c = true
    · rw [constraintStep_eligible tab _ c h, ih]
      refine BIState.ext ?_ ?_ ?_
      · simp [clauseAux, h, String.append_assoc]
      · simp only [List.filter_cons, h, if_true, List.length_cons]
        omega
      · simp [usageAux, h]
    · have h2 : eligible tab c = false := by revert h; cases eligible tab c <;> simp
      rw [constraintStep_skip tab _ c h2, ih]
      refine BIState.ext ?_ ?_ ?_
      · simp [clauseAux, h2]
      · simp [List.filter_cons, h2]
      · simp [usageAux, h2]

theorem orderStep_eligible (tab : pivot_vtab) (st : OBState) (o : OrderByTerm)
    (h : eligibleOrd tab o = true) :
    orderStep tab st o =
      { sql := st.sql ++ (if st.orderIdx = 0 then "\n ORDER BY " else ", ")
          ++ orderTermText tab o,
        orderIdx := st.orderIdx + 1,
        consumed := true } := by
  unfold orderStep
  rw [if_neg (not_not_intro (of_decide_eq_true h))]

theorem orderStep_skip (tab : pivot_vtab) (st : OBState) (o : OrderByTerm)
    (h : eligibleOrd tab o = false) :
    orderStep tab st o = st := by
  unfold orderStep
  rw [if_pos (of_decide_eq_false h)]

theorem orderFold (tab : pivot_vtab) (os : List OrderByTerm) :
    ∀ (sql0 : String) (k : Nat) (b : Bool),
      os.foldl (orderStep tab) { sql := sql0, orderIdx := k, consumed := b } =
        { sql := sql0 ++ orderClauseAux tab k os,
          orderIdx := k + (os.filter (eligibleOrd tab)).length,
          consumed := b || os.any (eligibleOrd tab) } := by
  induction os with
  | nil =>
    intro sql0 k b
    simp [orderClauseAux, String.append_empty]
  | cons o os ih =>
    intro sql0 k b
    rw [List.foldl_cons]
    by_cases h : eligibleOrd tab o = true
    · rw [orderStep_eligible tab _ o h, ih]
      refine OBState.ext ?_ ?_ ?_
      · simp [orderClauseAux, h, String.append_assoc]
      · simp only [List.filter_cons, h, if_true, List.length_cons]
        omega
      · simp [h]
    · have h2 : eligibleOrd tab o = false := by revert h; cases eligibleOrd tab o <;> simp
      rw [orderStep_skip tab _ o h2, ih]
      refine OBState.ext ?_ ?_ ?_
      · simp [orderClauseAux, h2]
      · simp [List.filter_cons, h2]
      · simp [h2]

theorem clauseAux_two (tab : pivot_vtab) (cs : List IndexConstraint) :
    ∀ k, clauseAux tab (k + 2) cs
      = strConcat ((cs.filter (eligible tab)).map (fun c => " AND " ++ conjunctText tab c)) := by
  induction cs with
  | nil => intro k; simp [clauseAux, strConcat]
  | cons c cs ih =>
    intro k
    by_cases h : eligible tab c = true
    · simp only [clauseAux, h, if_true, List.filter_cons, List.map_cons, strConcat]
      rw [if_neg (by omega : ¬ k + 2 = 1)]
      exact congrArg (fun s => " AND " ++ conjunctText tab c ++ s) (ih (k + 1))
    · have h2 : eligible tab c = false := by revert h; cases eligible tab c <;> simp
      simp only [clauseAux, h2, if_false, List.filter_cons, Bool.false_eq_true]
      exact ih k

theorem clauseAux_one (tab : pivot_vtab) (cs : List IndexConstraint) :
    clauseAux tab 1 cs = whereClauseSpec tab cs := by
  induction cs with
  | nil => simp [clauseAux, whereClauseSpec]
  | cons c cs ih =>
    by_cases h : eligible tab c = true
    · simp only [clauseAux, h, if_true, whereClauseSpec, List.filter_cons, if_pos rfl]
      rw [clauseAux_two tab cs 0]
    · have h2 : eligible tab c = false := by revert h; cases eligible tab c <;> simp
      simp only [clauseAux, h2, if_false, Bool.false_eq_true]
      rw [ih]
      unfold whereClauseSpec
      rw [List.filter_cons, if_neg (by simp [h2])]

theorem orderClauseAux_succ (tab : pivot_vtab) (os : List OrderByTerm) :
    ∀ k, orderClauseAux tab (k + 1) os
      = strConcat ((os.filter (eligibleOrd tab)).map (fun o => ", " ++ orderTermText tab o)) := by
  induction os with
  | nil => intro k; simp [orderClauseAux, strConcat]
  | cons o os ih =>
    intro k
    by_cases h : eligibleOrd tab o = true
    · simp only [orderClauseAux, h, if_true, List.filter_cons, List.map_cons, strConcat]
      rw [if_neg (by omega : ¬ k + 1 = 0)]
      exact congrArg (fun s => ", " ++ orderTermText tab o ++ s) (ih (k + 1))
    · have h2 : eligibleOrd tab o = false := by revert h; cases eligibleOrd tab o <;> simp
      simp only [orderClauseAux, h2, if_false, List.filter_cons, Bool.false_eq_true]
      exact ih k

theorem orderClauseAux_zero (tab : pivot_vtab) (os : List OrderByTerm) :
    orderClauseAux tab 0 os = orderClauseSpec tab os := by
  induction os with
  | nil => simp [orderClauseAux, orderClauseSpec]
  | cons o os ih =>
    by_cases h : eligibleOrd tab o = true
    · simp only [orderClauseAux, h, if_true, orderClauseSpec, List.filter_cons, if_pos rfl]
      rw [orderClauseAux_succ tab os 0]
    · have h2 : eligibleOrd tab o = false := by revert h; cases eligibleOrd tab o <;> simp
      simp only [orderClauseAux, h2, if_false, Bool.false_eq_true]
      rw [ih]
      unfold orderClauseSpec
      rw [List.filter_cons, if_neg (by simp [h2])]

theorem usageAux_length (tab : pivot_vtab) (cs : List IndexConstraint) :
    ∀ k, (usageAux tab k cs).length = cs.length := by
  induction cs with
  | nil => intro k; rfl
  | cons c cs ih =>
    intro k
    by_cases h : eligible tab c = true
    · simp [usageAux, h, ih]
    · have h2 : eligible tab c = false := by revert h; cases eligible tab c <;> simp
      simp [usageAux, h2, ih]

theorem usageAux_getD (tab : pivot_vtab) (cs : List IndexConstraint) :
    ∀ (k i : Nat) (h : i < cs.length),
      (usageAux tab k cs).getD i { argvIndex := 0, omitFlag := false } =
        if eligible tab (cs.get ⟨i, h⟩) = true
        then { argvIndex := k + ((cs.take i).filter (eligible tab)).length, omitFlag := true }
        else { argvIndex := 0, omitFlag := false } := by
  induction cs with
  | nil => intro k i h; simp at h
  | cons c cs ih =>
    intro k i h
    cases i with
    | zero =>
      by_cases hc : eligible tab c = true
      · simp [usageAux, hc]
      · have h2 : eligible tab c = false := by revert hc; cases eligible tab c <;> simp
        simp [usageAux, h2]
    | succ i =>
      have hi : i < cs.length := by simpa using h
      by_cases hc : eligible tab c = true
      · simp only [usageAux, hc, if_true, List.getD_cons_succ, List.get_cons_succ,
          List.take_succ_cons, List.filter_cons, if_pos rfl]
        rw [ih (k + 1) i hi]
        by_cases h2 : eligible tab (cs.get ⟨i, hi⟩) = true
        · rw [if_pos h2, if_pos h2]
          simp only [ConstraintUsage.mk.injEq, List.length_cons, and_true]
          omega
        · rw [if_neg h2, if_neg h2]
      · have h3 : eligible tab c = false := by revert hc; cases eligible tab c <;> simp
        simp only [usageAux, h3, if_false, List.getD_cons_succ, List.get_cons_succ,
          List.take_succ_cons, List.filter_cons, Bool.false_eq_true]
        exact ih k i hi

theorem bestIndex_spec (tab : pivot_vtab) (cs : List IndexConstraint)
    (ob : List OrderByTerm) :
    pivotBestIndex tab cs ob =
      ({ usage := usageAux tab 1 cs,
         orderByConsumed := ob.any (eligibleOrd tab),
         idxNum := 0,
         estimatedCost := (2147483647 : ℚ) / ((1 + (cs.filter (eligible tab)).length : Nat) : ℚ),
         estimatedRows := 10,
         idxStr := tab.key_sql_full_table_scan ++ whereClauseSpec tab cs
           ++ orderClauseSpec tab ob }, tab) := by
  simp only [pivotBestIndex]
  rw [constraintFold tab cs tab.key_sql_full_table_scan 1 []]
  rw [orderFold tab ob _ 0 false]
  simp only [List.nil_append, Bool.false_or, clauseAux_one, orderClauseAux_zero]

/-- Claim C4: exactly the usable constraints on a column below `nRow_cols`
whose operator the switch maps to SQL text are consumed — each reported
with `omit = 1` and a sequential `argvIndex` starting at 1 (one more than
the number of consumed constraints before it in input order) — and the
derived query is the full-scan query with those constraints appended, in
input order, as `column operator ?` conjuncts; every other constraint keeps
`argvIndex = 0` and `omit = 0`. -/
theorem pivotBestIndex_constraints (tab : pivot_vtab) (cs : List IndexConstraint)
    (ob : List OrderByTerm) :
    (pivotPlan tab cs ob).usage.length = cs.length ∧
    (∀ (i : Nat) (h : i < cs.length),
      (eligible tab (cs.get ⟨i, h⟩) = true →
        (pivotPlan tab cs ob).usage.getD i { argvIndex := 0, omitFlag := false } =
          { argvIndex := 1 + ((cs.take i).filter (eligible tab)).length, omitFlag := true }) ∧
      (eligible tab (cs.get ⟨i, h⟩) = false →
        (pivotPlan tab cs ob).usage.getD i { argvIndex := 0, omitFlag := false } =
          { argvIndex := 0, omitFlag := false })) ∧
    (pivotPlan tab cs ob).idxStr =
      tab.key_sql_full_table_scan ++ whereClauseSpec tab cs ++ orderClauseSpec tab ob := by
  unfold pivotPlan
  rw [bestIndex_spec tab cs ob]
  refine ⟨usageAux_length tab cs 1, ?_, rfl⟩
  intro i h
  constructor
  · intro he
    rw [usageAux_getD tab cs 1 i h, if_pos he]
  · intro he
    rw [usageAux_getD tab cs 1 i h, if_neg (by rw [he]; exact Bool.false_ne_true)]

/-- Witness for C4: in `exConstraints` over `exTab`, the eligible equality
constraint at position 0 is consumed with slot 1 and omit set, while the
function-style constraint at position 2 stays unconsumed. -/
theorem pivotBestIndex_constraints_witness :
    (pivotPlan exTab exConstraints exOrderBy).usage.getD 0 { argvIndex := 0, omitFlag := false }
      = { argvIndex := 1, omitFlag := true } ∧
    (pivotPlan exTab exConstraints exOrderBy).usage.getD 2 { argvIndex := 0, omitFlag := false }
      = { argvIndex := 0, omitFlag := false } := by
  constructor
  · have h := ((pivotBestIndex_constraints exTab exConstraints exOrderBy).2.1 0
      (by decide)).1 (by decide)
    simpa using h
  · exact ((pivotBestIndex_constraints exTab exConstraints exOrderBy).2.1 2
      (by decide)).2 (by decide)

/-- Claim C5: the eligible ordering terms are appended, in requested order
and with their requested direction, as the ORDER BY clause of the derived
query (ineligible terms are skipped), and `orderByConsumed` is reported
exactly when at least one ordering term is eligible; with no eligible term
the derived query carries no ORDER BY clause and ordering is not reported
satisfied. -/
theorem pivotBestIndex_orderBy (tab : pivot_vtab) (cs : List IndexConstraint)
    (ob : List OrderByTerm) :
    (pivotPlan tab cs ob).orderByConsumed = ob.any (eligibleOrd tab) ∧
    (pivotPlan tab cs ob).idxStr =
      tab.key_sql_full_table_scan ++ whereClauseSpec tab cs ++ orderClauseSpec tab ob ∧
    (ob.filter (eligibleOrd tab) = [] →
      orderClauseSpec tab ob = "" ∧ (pivotPlan tab cs ob).orderByConsumed = false) := by
  unfold pivotPlan
  rw [bestIndex_spec tab cs ob]
  refine ⟨rfl, rfl, ?_⟩
  intro h
  constructor
  · unfold orderClauseSpec
    rw [h]
  · simp only []
    rw [List.any_eq_false]
    intro o ho
    have h2 := List.filter_eq_nil_iff.mp h o ho
    revert h2
    cases eligibleOrd tab o <;> simp

/-- Witness for C5: with no eligible ordering term, no ORDER BY clause is
generated and ordering is not reported satisfied. -/
theorem pivotBestIndex_orderBy_witness :
    orderClauseSpec exTab exOrderByNone = "" ∧
    (pivotPlan exTab [] exOrderByNone).orderByConsumed = false :=
  ⟨((pivotBestIndex_orderBy exTab [] exOrderByNone).2.2 (by decide)).1,
   ((pivotBestIndex_orderBy exTab [] exOrderByNone).2.2 (by decide)).2⟩

/-- Claim C8: the estimated cost `2147483647 / (1 + consumed)` is strictly
smaller for a planning request that consumes strictly more predicates, and
the estimated row count is the fixed default 10 for every request. -/
theorem pivotBestIndex_cost (tab : pivot_vtab) (cs1 cs2 : List IndexConstraint)
    (ob1 ob2 : List OrderByTerm)
    (h : (cs2.filter (eligible tab)).length < (cs1.filter (eligible tab)).length) :
    (pivotPlan tab cs1 ob1).estimatedCost < (pivotPlan tab cs2 ob2).estimatedCost ∧
    (∀ (cs : List IndexConstraint) (ob : List OrderByTerm),
      (pivotPlan tab cs ob).estimatedRows = 10) := by
  constructor
  · unfold pivotPlan
    rw [bestIndex_spec tab cs1 ob1, bestIndex_spec tab cs2 ob2]
    simp only []
    apply div_lt_div_of_pos_left
    · norm_num
    · exact_mod_cast (by omega : 0 < 1 + (cs2.filter (eligible tab)).length)
    · exact_mod_cast Nat.add_lt_add_left h 1
  · intro cs ob
    unfold pivotPlan
    rw [bestIndex_spec tab cs ob]

/-- Witness for C8: one consumed equality predicate beats a full scan. -/
theorem pivotBestIndex_cost_witness :
    ((([] : List IndexConstraint).filter (eligible exTab)).length
      < (([⟨0, 2, true⟩] : List IndexConstraint).filter (eligible exTab)).length) ∧
    (pivotPlan exTab [⟨0, 2, true⟩] []).estimatedCost
      < (pivotPlan exTab [] []).estimatedCost :=
  ⟨by decide, (pivotBestIndex_cost exTab [⟨0, 2, true⟩] [] [] [] (by decide)).1⟩

/-- Claim C9: the planner's outputs are a pure function of the request and
the relation definition, and the relation definition — every field of it —
is left unchanged. -/
theorem pivotBestIndex_frame (tab : pivot_vtab) (cs : List IndexConstraint)
    (ob : List OrderByTerm) :
    pivotBestIndex tab cs ob = (pivotPlan tab cs ob, tab) ∧
    (pivotBestIndex tab cs ob).2.nRow_key = tab.nRow_key ∧
    (pivotBestIndex tab cs ob).2.nRow_cols = tab.nRow_cols ∧
    (pivotBestIndex tab cs ob).2.nCol_key = tab.nCol_key ∧
    (pivotBestIndex tab cs ob).2.col_stmt = tab.col_stmt ∧
    (pivotBestIndex tab cs ob).2.key_sql_col_names = tab.key_sql_col_names ∧
    (pivotBestIndex tab cs ob).2.key_sql_full_table_scan = tab.key_sql_full_table_scan ∧
    (pivotBestIndex tab cs ob).2.create_vtab_sql = tab.create_vtab_sql :=
  ⟨rfl, rfl, rfl, rfl, rfl, rfl, rfl, rfl⟩

end PivotVtab
